import Mathlib

/-!
Shallow embedding of the Vulkan rendering backend of this repository:
the device/surface/swapchain negotiation in `vk_renderer/mod.rs` and
`vk_renderer/swapchain_ext.rs`, and the runtime dispatcher in
`renderer/runtime.rs`.  Machine integers (`u32`) are modelled as `Nat`;
none of the modelled operations can overflow on the values the claims
are about, so no modular reduction is inserted.
-/

namespace VkSpec

/-- Pixel format of a surface, mirroring the constructors of
`vulkano::format::Format` used by the code (plus neighbours so that
absence of the preferred format is expressible). -/
inductive Format where
  | B8G8R8A8Unorm
  | B8G8R8A8Srgb
  | R8G8B8A8Unorm
  | R8G8B8A8Srgb
deriving DecidableEq, Repr

/-- Color space, mirroring `vulkano::swapchain::ColorSpace`. -/
inductive ColorSpace where
  | SrgbNonLinear
  | DisplayP3NonLinear
  | ExtendedSrgbLinear
deriving DecidableEq, Repr

/-- Present mode, mirroring `vulkano::swapchain::PresentMode`. -/
inductive PresentMode where
  | Immediate
  | Mailbox
  | Fifo
  | Relaxed
deriving DecidableEq, Repr

/-- Set of present modes a surface supports, mirroring
`vulkano::swapchain::SupportedPresentModes` (one flag per mode). -/
structure SupportedPresentModes where
  immediate : Bool
  mailbox : Bool
  fifo : Bool
  relaxed : Bool
deriving DecidableEq, Repr

/-- Surface capabilities, mirroring the fields of
`vulkano::swapchain::Capabilities` that the code reads.  Extents are
pairs of `u32` values modelled as `Nat × Nat`. -/
structure Capabilities where
  min_image_count : Nat
  max_image_count : Option Nat
  current_extent : Option (Nat × Nat)
  min_image_extent : Nat × Nat
  max_image_extent : Nat × Nat
  supported_formats : List (Format × ColorSpace)
  present_modes : SupportedPresentModes
deriving DecidableEq, Repr

/-- Translation of `CapabilitiesExt::choose_extent`
(`swapchain_ext.rs`): take the device-reported current extent when it
is defined, otherwise clamp each component of the actual window size as
`max(min_image_extent, min(max_image_extent, actual))`. -/
def Capabilities.choose_extent (c : Capabilities) (actual_width actual_height : Nat) :
    Nat × Nat :=
  match c.current_extent with
  | some e => e
  | none =>
      (max c.min_image_extent.1 (min c.max_image_extent.1 actual_width),
       max c.min_image_extent.2 (min c.max_image_extent.2 actual_height))

/-- Translation of `CapabilitiesExt::choose_image_count`
(`swapchain_ext.rs`): `min_image_count + 1`, lowered to
`max_image_count` when the device reports a finite maximum. -/
def Capabilities.choose_image_count (c : Capabilities) : Nat :=
  let image_count := c.min_image_count + 1
  match c.max_image_count with
  | some max_image_count => min image_count max_image_count
  | none => image_count

/-- Translation of `SupportedPresentModesExt::choose_present_mode`
(`swapchain_ext.rs`): the source matches `mailbox: true` first, then
`immediate: true`, then `fifo: true`, and otherwise yields no mode. -/
def SupportedPresentModes.choose_present_mode (m : SupportedPresentModes) :
    Option PresentMode :=
  if m.mailbox then some PresentMode.Mailbox
  else if m.immediate then some PresentMode.Immediate
  else if m.fifo then some PresentMode.Fifo
  else none

/-- Queue family of a physical device: the code reads its `id()`,
`queues_count()` and `supports_graphics()`. -/
structure QueueFamily where
  id : Nat
  queues_count : Nat
  supports_graphics : Bool
deriving DecidableEq, Repr

/-- Device extension set; the code only ever reads `khr_swapchain`. -/
structure DeviceExtensions where
  khr_swapchain : Bool
deriving DecidableEq, Repr

/-- A physical device as seen by the negotiator: its supported
extensions and its ordered list of queue families. -/
structure PhysicalDevice where
  supported_extensions : DeviceExtensions
  queue_families : List QueueFamily
deriving DecidableEq, Repr

/-- Error returned by the surface queries (`is_supported` /
`capabilities` return `Result<_, CapabilitiesError>` in vulkano). -/
structure CapabilitiesError where
  code : Nat
deriving DecidableEq, Repr

deriving instance DecidableEq for Except

/-- The drawable surface, modelled by its two fallible queries used
during negotiation: per-queue-family presentation support and
per-device capabilities. -/
structure Surface where
  is_supported : QueueFamily → Except CapabilitiesError Bool
  capabilities : PhysicalDevice → Except CapabilitiesError Capabilities

/-- Translation of the `PhysicalDeviceSolution` struct (`mod.rs`). -/
structure PhysicalDeviceSolution where
  physical_device : PhysicalDevice
  graphics_family : QueueFamily
  presentation_family : QueueFamily
  capabilities : Capabilities
deriving DecidableEq, Repr

/-- Queue-sharing mode, mirroring `vulkano::sync::SharingMode`:
exclusive with a single family id, or concurrent with a list of ids. -/
inductive SharingMode where
  | Exclusive (id : Nat)
  | Concurrent (ids : List Nat)
deriving DecidableEq, Repr

/-- Translation of `PhysicalDeviceSolution::queues_are_same`. -/
def PhysicalDeviceSolution.queues_are_same (sol : PhysicalDeviceSolution) : Bool :=
  sol.graphics_family.id == sol.presentation_family.id

/-- Translation of `PhysicalDeviceSolution::image_sharing_mode`:
exclusive tagged with the graphics family id when the two families
coincide, otherwise concurrent tagged with `[graphics, presentation]`. -/
def PhysicalDeviceSolution.image_sharing_mode (sol : PhysicalDeviceSolution) :
    SharingMode :=
  if sol.queues_are_same then
    SharingMode.Exclusive sol.graphics_family.id
  else
    SharingMode.Concurrent [sol.graphics_family.id, sol.presentation_family.id]

/-- Translation of `PhysicalDeviceSolution::best_format`: the first
supported pair equal to `(B8G8R8A8Unorm, SrgbNonLinear)`, if any. -/
def PhysicalDeviceSolution.best_format (sol : PhysicalDeviceSolution) :
    Option (Format × ColorSpace) :=
  sol.capabilities.supported_formats.find?
    (fun p => p.1 == Format.B8G8R8A8Unorm && p.2 == ColorSpace.SrgbNonLinear)

/-- Placeholder for `vulkano::instance::InstanceCreationError`. -/
structure InstanceCreationError where
  code : Nat
deriving DecidableEq, Repr

/-- Placeholder for `vulkano::instance::debug::DebugCallbackCreationError`. -/
structure DebugCallbackCreationError where
  code : Nat
deriving DecidableEq, Repr

/-- Placeholder for `vulkano_win::CreationError`. -/
structure SurfaceCreationError where
  code : Nat
deriving DecidableEq, Repr

/-- Placeholder for `vulkano::device::DeviceCreationError`. -/
structure DeviceCreationError where
  code : Nat
deriving DecidableEq, Repr

/-- Placeholder for `vulkano::swapchain::SwapchainCreationError`. -/
structure SwapchainCreationError where
  code : Nat
deriving DecidableEq, Repr

/-- Translation of the `VulkanInstanceCreationError` enum (`mod.rs`):
one constructor per source variant, in source order. -/
inductive VulkanInstanceCreationError where
  | Instance (e : InstanceCreationError)
  | DebugCallback (e : DebugCallbackCreationError)
  | SurfaceCreation (e : SurfaceCreationError)
  | NoMatchingDevice
  | DeviceCreation (e : DeviceCreationError)
  | Dynamic (description : String)
  | SwapchainCreation (e : SwapchainCreationError)
deriving DecidableEq, Repr

/-- Whether an error is the generic dynamic-message variant. -/
def VulkanInstanceCreationError.isDynamic : VulkanInstanceCreationError → Bool
  | .Dynamic _ => true
  | _ => false

/-- Outcome of a computation that may abort the process: either a
normal value or a panic (a failed `unwrap` in the source). -/
inductive PanicOr (α : Type) where
  | panics
  | ok (a : α)
deriving DecidableEq, Repr

/-- Translation of the presentation-family search inside
`PhysicalDeviceExt::find_solution` (`mod.rs`):
`self.queue_families().find(|qf| surface.is_supported(qf).unwrap() && qf.queues_count() > 0)`.
The iterator walks the families in order; for each one the surface
query is unwrapped first (a query error aborts) and then the
short-circuit conjunction with `queues_count() > 0` is evaluated. -/
def findPresentFamily (s : Surface) : List QueueFamily → PanicOr (Option QueueFamily)
  | [] => .ok none
  | qf :: rest =>
      match s.is_supported qf with
      | .error _ => .panics
      | .ok sup =>
          if sup && decide (0 < qf.queues_count) then .ok (some qf)
          else findPresentFamily s rest

/-- The value of the presentation-family predicate
`surface.is_supported(qf).unwrap() && qf.queues_count() > 0` in the
runs where the query succeeds: the query returned `true` and the
family has at least one queue. -/
def presPred (s : Surface) (qf : QueueFamily) : Bool :=
  (s.is_supported qf == Except.ok true) && decide (0 < qf.queues_count)

/-- Translation of the graphics-family search inside
`PhysicalDeviceExt::find_solution`:
`self.queue_families().filter(|qf| qf.queues_count() > 0).find(QueueFamily::supports_graphics)`. -/
def graphicsFamilyFind (d : PhysicalDevice) : Option QueueFamily :=
  (d.queue_families.filter (fun qf => decide (0 < qf.queues_count))).find?
    (fun qf => qf.supports_graphics)

/-- Translation of `PhysicalDeviceExt::find_solution` (`mod.rs`):
devices without the `khr_swapchain` extension are excluded at once;
the graphics family is the first queue family with at least one queue
that supports graphics; the presentation family is found by
`findPresentFamily`; finally `surface.capabilities(device)` is
unwrapped to fill the solution. -/
def find_solution (s : Surface) (d : PhysicalDevice) :
    PanicOr (Option PhysicalDeviceSolution) :=
  if !d.supported_extensions.khr_swapchain then .ok none
  else
    match graphicsFamilyFind d with
    | none => .ok none
    | some graphics_family =>
        match findPresentFamily s d.queue_families with
        | .panics => .panics
        | .ok none => .ok none
        | .ok (some presentation_family) =>
            match s.capabilities d with
            | .error _ => .panics
            | .ok capabilities =>
                .ok (some { physical_device := d,
                            graphics_family := graphics_family,
                            presentation_family := presentation_family,
                            capabilities := capabilities })

/-- Translation of the device-selection pipeline at the top of
`VulkanQuadRenderer::new` (`mod.rs`):
`PhysicalDevice::enumerate(..).filter_map(|d| d.find_solution(..)).next()`.
The iterator is lazy, so devices after the first one yielding a
solution are never examined. -/
def selectSolution (s : Surface) : List PhysicalDevice → PanicOr (Option PhysicalDeviceSolution)
  | [] => .ok none
  | d :: rest =>
      match find_solution s d with
      | .panics => .panics
      | .ok (some sol) => .ok (some sol)
      | .ok none => selectSolution s rest

/-- Translation of the `.map(Ok).unwrap_or(Err(NoMatchingDevice))?`
step of `VulkanQuadRenderer::new`: an empty selection becomes the
typed `NoMatchingDevice` error. -/
def negotiateDevice (s : Surface) (devices : List PhysicalDevice) :
    PanicOr (Except VulkanInstanceCreationError PhysicalDeviceSolution) :=
  match selectSolution s devices with
  | .panics => .panics
  | .ok none => .ok (.error VulkanInstanceCreationError.NoMatchingDevice)
  | .ok (some sol) => .ok (.ok sol)

/-- Translation of the format step of `VulkanQuadRenderer::new`:
`solution.best_format().map(Ok).unwrap_or(Err(Dynamic("No suitable supported formats")))?`. -/
def bestFormatStep (sol : PhysicalDeviceSolution) :
    Except VulkanInstanceCreationError (Format × ColorSpace) :=
  match sol.best_format with
  | some p => .ok p
  | none => .error (VulkanInstanceCreationError.Dynamic "No suitable supported formats")

/-- Translation of the present-mode step of `VulkanQuadRenderer::new`:
`solution.capabilities.present_modes.choose_present_mode().map(Ok).unwrap_or(Err(Dynamic("No suitable present modes")))?`. -/
def choosePresentModeStep (m : SupportedPresentModes) :
    Except VulkanInstanceCreationError PresentMode :=
  match m.choose_present_mode with
  | some pm => .ok pm
  | none => .error (VulkanInstanceCreationError.Dynamic "No suitable present modes")

/-- Whether an `Except` value is a success. -/
def isOkB {ε α : Type} : Except ε α → Bool
  | .ok _ => true
  | .error _ => false

/-- Eligibility of a device, as the claim states it: the swapchain
extension is supported, some queue family has a queue and supports
graphics, and some queue family has a queue and is confirmed by the
surface as able to present. -/
def Eligible (s : Surface) (d : PhysicalDevice) : Prop :=
  d.supported_extensions.khr_swapchain = true ∧
  (∃ qf ∈ d.queue_families, 0 < qf.queues_count ∧ qf.supports_graphics = true) ∧
  (∃ qf ∈ d.queue_families, 0 < qf.queues_count ∧ s.is_supported qf = .ok true)

instance (s : Surface) (d : PhysicalDevice) : Decidable (Eligible s d) := by
  unfold Eligible; infer_instance

/-- Precondition under which negotiation performs no failing unwrap:
for every enumerated device with the swapchain extension, every
per-family presentation query and the capabilities query succeed. -/
def queriesOk (s : Surface) (devices : List PhysicalDevice) : Prop :=
  ∀ d ∈ devices, d.supported_extensions.khr_swapchain = true →
    ((∀ qf ∈ d.queue_families, isOkB (s.is_supported qf) = true) ∧
     isOkB (s.capabilities d) = true)

instance (s : Surface) (devices : List PhysicalDevice) : Decidable (queriesOk s devices) := by
  unfold queriesOk; infer_instance

section RuntimeDispatcher

/-!
Model of `renderer/runtime.rs`.  The concrete per-backend context
types (the classic backend lives outside this component) and the
collaborator types (colors, glyph caches, configs, sizes, floats) are
abstract type parameters; each variant's method implementation is
passed in as a function, so the theorems quantify over arbitrary
instrumented implementations.  Methods that mutate through `&mut`
references are embedded by explicit state passing.
-/

variable {Str Line GlyphCache RenderableCell Rgb Config SizeInfo Rects PhysicalSize F32 F64 RasterizedGlyph Glyph : Type}

/-- Translation of the `RuntimeRenderer` enum: the tagged union over
the two backends' frame-drawing contexts. -/
inductive RuntimeRenderer (C V : Type) where
  | Classic (r : C)
  | Vulkan (r : V)
deriving DecidableEq, Repr

/-- Translation of the `RuntimeLoader` enum: the tagged union over
the two backends' glyph-loader contexts. -/
inductive RuntimeLoader (C V : Type) where
  | Classic (l : C)
  | Vulkan (l : V)
deriving DecidableEq, Repr

/-- Translation of the `RuntimeQuadRenderer` enum: the tagged union
over the two backend instances. -/
inductive RuntimeQuadRenderer (C V : Type) where
  | Classic (r : C)
  | Vulkan (r : V)
deriving DecidableEq, Repr

/-- Translation of `Renderer::clear` for `RuntimeRenderer`: match on
the tag and forward to the active variant's implementation. -/
def RuntimeRenderer.clear {C V : Type} (cImpl : C → Rgb → C) (vImpl : V → Rgb → V) :
    RuntimeRenderer C V → Rgb → RuntimeRenderer C V
  | .Classic r, color => .Classic (cImpl r color)
  | .Vulkan r, color => .Vulkan (vImpl r color)

/-- Translation of `Renderer::render_string` for `RuntimeRenderer`;
the `&mut GlyphCache` argument is threaded in and out. -/
def RuntimeRenderer.render_string {C V : Type}
    (cImpl : C → Str → Line → GlyphCache → Option Rgb → C × GlyphCache)
    (vImpl : V → Str → Line → GlyphCache → Option Rgb → V × GlyphCache) :
    RuntimeRenderer C V → Str → Line → GlyphCache → Option Rgb →
      RuntimeRenderer C V × GlyphCache
  | .Classic r, string, line, glyph_cache, color =>
      ((RuntimeRenderer.Classic (cImpl r string line glyph_cache color).1),
       (cImpl r string line glyph_cache color).2)
  | .Vulkan r, string, line, glyph_cache, color =>
      ((RuntimeRenderer.Vulkan (vImpl r string line glyph_cache color).1),
       (vImpl r string line glyph_cache color).2)

/-- Translation of `Renderer::render_cell` for `RuntimeRenderer`. -/
def RuntimeRenderer.render_cell {C V : Type}
    (cImpl : C → RenderableCell → GlyphCache → C × GlyphCache)
    (vImpl : V → RenderableCell → GlyphCache → V × GlyphCache) :
    RuntimeRenderer C V → RenderableCell → GlyphCache →
      RuntimeRenderer C V × GlyphCache
  | .Classic r, cell, glyph_cache =>
      ((RuntimeRenderer.Classic (cImpl r cell glyph_cache).1), (cImpl r cell glyph_cache).2)
  | .Vulkan r, cell, glyph_cache =>
      ((RuntimeRenderer.Vulkan (vImpl r cell glyph_cache).1), (vImpl r cell glyph_cache).2)

/-- Translation of `LoadGlyph::load_glyph` for `RuntimeLoader`: the
forwarded call returns the active variant's glyph handle. -/
def RuntimeLoader.load_glyph {C V : Type}
    (cImpl : C → RasterizedGlyph → C × Glyph)
    (vImpl : V → RasterizedGlyph → V × Glyph) :
    RuntimeLoader C V → RasterizedGlyph → RuntimeLoader C V × Glyph
  | .Classic l, rasterized =>
      ((RuntimeLoader.Classic (cImpl l rasterized).1), (cImpl l rasterized).2)
  | .Vulkan l, rasterized =>
      ((RuntimeLoader.Vulkan (vImpl l rasterized).1), (vImpl l rasterized).2)

/-- Translation of `LoadGlyph::clear` for `RuntimeLoader`. -/
def RuntimeLoader.clear {C V : Type} (cImpl : C → C) (vImpl : V → V) :
    RuntimeLoader C V → RuntimeLoader C V
  | .Classic l => .Classic (cImpl l)
  | .Vulkan l => .Vulkan (vImpl l)

/-- Translation of `BaseRenderContext::resize` for
`RuntimeQuadRenderer` (the source matches on the tag directly). -/
def RuntimeQuadRenderer.resize {C V : Type}
    (cImpl : C → PhysicalSize → F32 → F32 → C)
    (vImpl : V → PhysicalSize → F32 → F32 → V) :
    RuntimeQuadRenderer C V → PhysicalSize → F32 → F32 → RuntimeQuadRenderer C V
  | .Classic r, size, padding_x, padding_y => .Classic (cImpl r size padding_x padding_y)
  | .Vulkan r, size, padding_x, padding_y => .Vulkan (vImpl r size padding_x padding_y)

/-- Translation of `BaseRenderContext::draw_rects` for
`RuntimeQuadRenderer`. -/
def RuntimeQuadRenderer.draw_rects {C V : Type}
    (cImpl : C → Config → SizeInfo → F64 → Rects → C)
    (vImpl : V → Config → SizeInfo → F64 → Rects → V) :
    RuntimeQuadRenderer C V → Config → SizeInfo → F64 → Rects → RuntimeQuadRenderer C V
  | .Classic r, config, props, visual_bell_intensity, cell_line_rects =>
      .Classic (cImpl r config props visual_bell_intensity cell_line_rects)
  | .Vulkan r, config, props, visual_bell_intensity, cell_line_rects =>
      .Vulkan (vImpl r config props visual_bell_intensity cell_line_rects)

/-- Translation of `RenderContext::borrow_api` for
`RuntimeQuadRenderer`: the produced frame context is wrapped in the
`RuntimeRenderer` variant matching the dispatcher's own tag. -/
def RuntimeQuadRenderer.borrow_api {C V CR VR : Type}
    (cImpl : C → Config → SizeInfo → CR)
    (vImpl : V → Config → SizeInfo → VR) :
    RuntimeQuadRenderer C V → Config → SizeInfo → RuntimeRenderer CR VR
  | .Classic r, config, props => RuntimeRenderer.Classic (cImpl r config props)
  | .Vulkan r, config, props => RuntimeRenderer.Vulkan (vImpl r config props)

/-- Translation of `RenderContext::borrow_loader` for
`RuntimeQuadRenderer`: the produced loader context is wrapped in the
`RuntimeLoader` variant matching the dispatcher's own tag. -/
def RuntimeQuadRenderer.borrow_loader {C V CL VL : Type}
    (cImpl : C → CL) (vImpl : V → VL) :
    RuntimeQuadRenderer C V → RuntimeLoader CL VL
  | .Classic r => RuntimeLoader.Classic (cImpl r)
  | .Vulkan r => RuntimeLoader.Vulkan (vImpl r)

/-!
Model of the unfinished Vulkan backend capability implementations in
`vk_renderer/mod.rs`.  Every method body in the source is
`unimplemented!()`, a fatal abort; a call either aborts or returns a
plain value — the signatures carry no error type.
-/

/-- Outcome of calling a capability method: a fatal abort or a normal
return.  There is no error constructor, mirroring the trait
signatures, which return plain values and no `Result`. -/
inductive CallOutcome (α : Type) where
  | panics
  | ret (a : α)
deriving DecidableEq, Repr

/-- Translation of the `VulkanRenderApi` struct (a placeholder holding
only `PhantomData`). -/
structure VulkanRenderApi where
  data : Unit
deriving DecidableEq, Repr

/-- Translation of the `VulkanLoaderApi` struct. -/
structure VulkanLoaderApi where
  data : Unit
deriving DecidableEq, Repr

/-- Translation of the `VkQuadRenderer` struct; its resource handles
are owned by external collaborators and are irrelevant to the claims,
so they are modelled as opaque unit fields. -/
structure VkQuadRenderer where
  swapchain : Unit
  images : Unit
deriving DecidableEq, Repr

/-- Translation of `Renderer::clear` for `VulkanRenderApi`:
`unimplemented!()`. -/
def VulkanRenderApi.clear (_self : VulkanRenderApi) (_color : Rgb) : CallOutcome Unit :=
  .panics

/-- Translation of `Renderer::render_string` for `VulkanRenderApi`:
`unimplemented!()`. -/
def VulkanRenderApi.render_string (_self : VulkanRenderApi) (_string : Str)
    (_line : Line) (_glyph_cache : GlyphCache) (_color : Option Rgb) : CallOutcome Unit :=
  .panics

/-- Translation of `Renderer::render_cell` for `VulkanRenderApi`:
`unimplemented!()`. -/
def VulkanRenderApi.render_cell (_self : VulkanRenderApi) (_cell : RenderableCell)
    (_glyph_cache : GlyphCache) : CallOutcome Unit :=
  .panics

/-- Translation of `LoadGlyph::load_glyph` for `VulkanLoaderApi`:
`unimplemented!()`. -/
def VulkanLoaderApi.load_glyph (_self : VulkanLoaderApi)
    (_rasterized : RasterizedGlyph) : CallOutcome Glyph :=
  .panics

/-- Translation of `LoadGlyph::clear` for `VulkanLoaderApi`:
`unimplemented!()`. -/
def VulkanLoaderApi.clear (_self : VulkanLoaderApi) : CallOutcome Unit :=
  .panics

/-- Translation of `BaseRenderContext::resize` for `VkQuadRenderer`:
`unimplemented!()`. -/
def VkQuadRenderer.resize (_self : VkQuadRenderer) (_size : PhysicalSize)
    (_padding_x : F32) (_padding_y : F32) : CallOutcome Unit :=
  .panics

/-- Translation of `BaseRenderContext::draw_rects` for
`VkQuadRenderer`: `unimplemented!()`. -/
def VkQuadRenderer.draw_rects (_self : VkQuadRenderer) (_config : Config)
    (_props : SizeInfo) (_visual_bell_intensity : F64) (_cell_line_rects : Rects) :
    CallOutcome Unit :=
  .panics

/-- Translation of `RenderContext::borrow_api` for `VkQuadRenderer`:
`unimplemented!()`. -/
def VkQuadRenderer.borrow_api (_self : VkQuadRenderer) (_config : Config)
    (_props : SizeInfo) : CallOutcome VulkanRenderApi :=
  .panics

/-- Translation of `RenderContext::borrow_loader` for
`VkQuadRenderer`: `unimplemented!()`. -/
def VkQuadRenderer.borrow_loader (_self : VkQuadRenderer) : CallOutcome VulkanLoaderApi :=
  .panics

end RuntimeDispatcher

/-!
Concrete sample data used to instantiate the theorems below on closed
inputs.
-/

/-- A queue family with one queue that supports graphics. -/
def qfGfx : QueueFamily := { id := 0, queues_count := 1, supports_graphics := true }

/-- A queue family with one queue that does not support graphics. -/
def qfPres : QueueFamily := { id := 2, queues_count := 1, supports_graphics := false }

/-- Sample capabilities: the preferred format pair is supported,
mailbox and fifo present modes are advertised, and the image-count and
extent bounds match the spec's worked examples. -/
def capsSample : Capabilities :=
  { min_image_count := 2,
    max_image_count := some 2,
    current_extent := none,
    min_image_extent := (64, 64),
    max_image_extent := (1920, 1080),
    supported_formats := [(Format.B8G8R8A8Unorm, ColorSpace.SrgbNonLinear)],
    present_modes := { immediate := false, mailbox := true, fifo := true, relaxed := false } }

/-- Capabilities whose format list misses the preferred pair and whose
present-mode set is empty. -/
def capsBare : Capabilities :=
  { min_image_count := 2,
    max_image_count := none,
    current_extent := some (640, 480),
    min_image_extent := (64, 64),
    max_image_extent := (1920, 1080),
    supported_formats := [(Format.R8G8B8A8Unorm, ColorSpace.SrgbNonLinear),
                          (Format.B8G8R8A8Unorm, ColorSpace.ExtendedSrgbLinear)],
    present_modes := { immediate := false, mailbox := false, fifo := false, relaxed := false } }

/-- A device with the swapchain extension and a graphics-capable
queue family. -/
def dEligible : PhysicalDevice :=
  { supported_extensions := { khr_swapchain := true }, queue_families := [qfGfx, qfPres] }

/-- A device without the swapchain extension. -/
def dNoExt : PhysicalDevice :=
  { supported_extensions := { khr_swapchain := false }, queue_families := [qfGfx] }

/-- A surface whose queries always succeed, answering `capsSample`. -/
def sOk : Surface :=
  { is_supported := fun _ => .ok true, capabilities := fun _ => .ok capsSample }

/-- A surface whose presentation-support query always fails. -/
def sErr : Surface :=
  { is_supported := fun _ => .error { code := 1 }, capabilities := fun _ => .ok capsSample }

/-- A surface whose presentation-support query succeeds but whose
capabilities query fails. -/
def sCapErr : Surface :=
  { is_supported := fun _ => .ok true, capabilities := fun _ => .error { code := 7 } }

/-- A solution whose capabilities advertise the preferred format. -/
def solSample : PhysicalDeviceSolution :=
  { physical_device := dEligible, graphics_family := qfGfx,
    presentation_family := qfGfx, capabilities := capsSample }

/-- A solution whose capabilities do not advertise the preferred
format and offer no usable present mode, with distinct graphics and
presentation families. -/
def solBare : PhysicalDeviceSolution :=
  { physical_device := dEligible, graphics_family := qfGfx,
    presentation_family := qfPres, capabilities := capsBare }

/-!
Theorems.  Helper lemmas are shared; each claim is settled by a single
theorem named after it.
-/

lemma presPred_true_iff (s : Surface) (qf : QueueFamily) :
    presPred s qf = true ↔ s.is_supported qf = .ok true ∧ 0 < qf.queues_count := by
  unfold presPred
  rw [Bool.and_eq_true, beq_iff_eq, decide_eq_true_iff]

lemma graphicsFamilyFind_isSome (d : PhysicalDevice) :
    (graphicsFamilyFind d).isSome = true ↔
      ∃ qf ∈ d.queue_families, 0 < qf.queues_count ∧ qf.supports_graphics = true := by
  unfold graphicsFamilyFind
  rw [List.find?_isSome]
  constructor
  · rintro ⟨qf, hmem, hp⟩
    rw [List.mem_filter] at hmem
    exact ⟨qf, hmem.1, by simpa using hmem.2, hp⟩
  · rintro ⟨qf, hmem, hcount, hgfx⟩
    exact ⟨qf, List.mem_filter.mpr ⟨hmem, by simpa using hcount⟩, hgfx⟩

lemma findPresentFamily_eq_find? (s : Surface) (fams : List QueueFamily)
    (h : ∀ qf ∈ fams, isOkB (s.is_supported qf) = true) :
    findPresentFamily s fams = .ok (fams.find? (presPred s)) := by
  induction fams with
  | nil => rfl
  | cons qf rest ih =>
      have hq : isOkB (s.is_supported qf) = true := h qf (List.mem_cons_self _ _)
      have hrest := ih (fun x hx => h x (List.mem_cons_of_mem _ hx))
      rw [findPresentFamily]
      cases hsup : s.is_supported qf with
      | error e => rw [hsup] at hq; simp [isOkB] at hq
      | ok b =>
          have hpred : presPred s qf = (b && decide (0 < qf.queues_count)) := by
            unfold presPred
            rw [hsup]
            cases b <;> simp
          show (if (b && decide (0 < qf.queues_count)) = true then PanicOr.ok (some qf)
                else findPresentFamily s rest) = _
          by_cases hb : (b && decide (0 < qf.queues_count)) = true
          · rw [if_pos hb, List.find?_cons_of_pos _ (hpred.trans hb)]
          · rw [if_neg hb, List.find?_cons_of_neg _ (fun hc => hb (hpred.symm.trans hc))]
            exact hrest

lemma find_solution_of_no_ext (s : Surface) (d : PhysicalDevice)
    (hk : ¬ d.supported_extensions.khr_swapchain = true) :
    find_solution s d = .ok none := by
  unfold find_solution
  rw [if_pos]
  simp [hk]

lemma find_solution_spec (s : Surface) (d : PhysicalDevice)
    (hq : d.supported_extensions.khr_swapchain = true →
      (∀ qf ∈ d.queue_families, isOkB (s.is_supported qf) = true) ∧
        isOkB (s.capabilities d) = true) :
    (Eligible s d → ∃ sol, find_solution s d = .ok (some sol) ∧ sol.physical_device = d) ∧
    (¬ Eligible s d → find_solution s d = .ok none) := by
  by_cases hk : d.supported_extensions.khr_swapchain = true
  case neg =>
    exact ⟨fun he => absurd he.1 hk, fun _ => find_solution_of_no_ext s d hk⟩
  case pos =>
    obtain ⟨h1, h2⟩ := hq hk
    obtain ⟨caps, hcaps⟩ : ∃ caps, s.capabilities d = .ok caps := by
      cases hc : s.capabilities d with
      | ok c => exact ⟨c, rfl⟩
      | error e => rw [hc] at h2; simp [isOkB] at h2
    have hfp := findPresentFamily_eq_find? s d.queue_families h1
    unfold find_solution
    rw [if_neg (by simp [hk])]
    cases hg : graphicsFamilyFind d with
    | none =>
        have hne : ¬ Eligible s d := by
          intro he
          have hs := (graphicsFamilyFind_isSome d).mpr he.2.1
          rw [hg] at hs
          simp at hs
        exact ⟨fun he => absurd he hne, fun _ => rfl⟩
    | some g =>
        rw [hfp]
        cases hpf : d.queue_families.find? (presPred s) with
        | none =>
            have hne : ¬ Eligible s d := by
              intro he
              obtain ⟨qf, hmem, hcnt, hsup⟩ := he.2.2
              exact List.find?_eq_none.mp hpf qf hmem
                ((presPred_true_iff s qf).mpr ⟨hsup, hcnt⟩)
            exact ⟨fun he => absurd he hne, fun _ => rfl⟩
        | some pf =>
            rw [hcaps]
            have hel : Eligible s d := by
              refine ⟨hk, ?_, ?_⟩
              · have hmemf := List.mem_of_find?_eq_some hg
                have hgfx := List.find?_some hg
                rw [graphicsFamilyFind] at hg
                have hmemf2 := List.mem_of_find?_eq_some hg
                rw [List.mem_filter] at hmemf2
                exact ⟨g, hmemf2.1, by simpa using hmemf2.2, List.find?_some hg⟩
              · have hmem := List.mem_of_find?_eq_some hpf
                obtain ⟨hsup, hcnt⟩ := (presPred_true_iff s pf).mp (List.find?_some hpf)
                exact ⟨pf, hmem, hcnt, hsup⟩
            exact ⟨fun _ => ⟨{ physical_device := d, graphics_family := g,
                               presentation_family := pf, capabilities := caps }, rfl, rfl⟩,
                   fun hne => absurd hel hne⟩

lemma find_solution_no_panic (s : Surface) (d : PhysicalDevice)
    (hq : d.supported_extensions.khr_swapchain = true →
      (∀ qf ∈ d.queue_families, isOkB (s.is_supported qf) = true) ∧
        isOkB (s.capabilities d) = true) :
    find_solution s d ≠ PanicOr.panics := by
  by_cases he : Eligible s d
  · obtain ⟨sol, hsol, _⟩ := (find_solution_spec s d hq).1 he
    rw [hsol]
    simp
  · rw [(find_solution_spec s d hq).2 he]
    simp

lemma selectSolution_none (s : Surface) (devices : List PhysicalDevice)
    (hq : queriesOk s devices) (hne : ∀ d ∈ devices, ¬ Eligible s d) :
    selectSolution s devices = .ok none := by
  induction devices with
  | nil => rfl
  | cons d rest ih =>
      have hfs := (find_solution_spec s d (hq d (List.mem_cons_self _ _))).2
        (hne d (List.mem_cons_self _ _))
      rw [selectSolution, hfs]
      exact ih (fun d2 h2 => hq d2 (List.mem_cons_of_mem _ h2))
        (fun d2 h2 => hne d2 (List.mem_cons_of_mem _ h2))

lemma selectSolution_first (s : Surface) (pre : List PhysicalDevice)
    (d : PhysicalDevice) (post : List PhysicalDevice)
    (hq : queriesOk s (pre ++ d :: post))
    (hpre : ∀ d2 ∈ pre, ¬ Eligible s d2) (hd : Eligible s d) :
    ∃ sol, selectSolution s (pre ++ d :: post) = .ok (some sol) ∧
      sol.physical_device = d := by
  induction pre with
  | nil =>
      obtain ⟨sol, hsol, hdev⟩ :=
        (find_solution_spec s d (hq d (List.mem_cons_self _ _))).1 hd
      exact ⟨sol, by rw [List.nil_append, selectSolution, hsol], hdev⟩
  | cons p pre' ih =>
      have hmemp : p ∈ (p :: pre') ++ d :: post := List.mem_cons_self _ _
      have hfs := (find_solution_spec s p (hq p hmemp)).2 (hpre p (List.mem_cons_self _ _))
      have hq2 : queriesOk s (pre' ++ d :: post) := fun d2 h2 =>
        hq d2 (by rw [List.cons_append]; exact List.mem_cons_of_mem _ h2)
      obtain ⟨sol, hsol, hdev⟩ := ih hq2 (fun d2 h2 => hpre d2 (List.mem_cons_of_mem _ h2))
      exact ⟨sol, by rw [List.cons_append, selectSolution, hfs]; exact hsol, hdev⟩

lemma selectSolution_no_panic (s : Surface) (devices : List PhysicalDevice)
    (hq : queriesOk s devices) : selectSolution s devices ≠ PanicOr.panics := by
  induction devices with
  | nil => simp [selectSolution]
  | cons d rest ih =>
      have h1 := find_solution_no_panic s d (hq d (List.mem_cons_self _ _))
      rw [selectSolution]
      cases hfs : find_solution s d with
      | panics => exact absurd hfs h1
      | ok o =>
          cases o with
          | none => exact ih (fun d2 h2 => hq d2 (List.mem_cons_of_mem _ h2))
          | some sol => simp

/-- Claim C1: device negotiation keeps the first enumerated physical device
that is eligible — swapchain extension supported, some queue family
with a queue supporting graphics, and some queue family with a queue
confirmed by the surface for presentation — and fails with the
`NoMatchingDevice` error when no enumerated device is eligible.  The
decomposition `devices = pre ++ d :: post` with every device of `pre`
ineligible shows that the selected device is the first eligible one
regardless of what follows it, so no ranking or best-fit is
performed. -/
theorem C1_first_eligible_device (s : Surface) (devices : List PhysicalDevice)
    (hq : queriesOk s devices) :
    ((∀ d ∈ devices, ¬ Eligible s d) →
      negotiateDevice s devices =
        .ok (.error VulkanInstanceCreationError.NoMatchingDevice)) ∧
    (∀ pre d post, devices = pre ++ d :: post →
      (∀ d2 ∈ pre, ¬ Eligible s d2) → Eligible s d →
      ∃ sol, negotiateDevice s devices = .ok (.ok sol) ∧
        sol.physical_device = d) := by
  constructor
  · intro hne
    unfold negotiateDevice
    rw [selectSolution_none s devices hq hne]
  · intro pre d post hsplit hpre hd
    subst hsplit
    obtain ⟨sol, hsol, hdev⟩ := selectSolution_first s pre d post hq hpre hd
    exact ⟨sol, by unfold negotiateDevice; rw [hsol], hdev⟩

/-- Witness for C1: with an always-succeeding surface and the device
list `[dNoExt, dEligible]`, negotiation skips the extension-less
device and selects the eligible one; on the list `[dNoExt]` it fails
with `NoMatchingDevice`. -/
theorem C1_first_eligible_device_witness :
    (∃ sol, negotiateDevice sOk [dNoExt, dEligible] = .ok (.ok sol) ∧
      sol.physical_device = dEligible) ∧
    negotiateDevice sOk [dNoExt] =
      .ok (.error VulkanInstanceCreationError.NoMatchingDevice) :=
  ⟨(C1_first_eligible_device sOk [dNoExt, dEligible] (by decide)).2
      [dNoExt] dEligible [] rfl (by decide) (by decide),
   (C1_first_eligible_device sOk [dNoExt] (by decide)).1 (by decide)⟩

/-- Claim C2: present-mode selection obeys the strict priority
mailbox > immediate > fifo, and when none of the three is supported no
mode is chosen and the step fails with the dynamic error
`"No suitable present modes"`. -/
theorem C2_present_mode_priority (m : SupportedPresentModes) :
    (m.mailbox = true →
      m.choose_present_mode = some PresentMode.Mailbox ∧
      choosePresentModeStep m = .ok PresentMode.Mailbox) ∧
    (m.mailbox = false → m.immediate = true →
      m.choose_present_mode = some PresentMode.Immediate ∧
      choosePresentModeStep m = .ok PresentMode.Immediate) ∧
    (m.mailbox = false → m.immediate = false → m.fifo = true →
      m.choose_present_mode = some PresentMode.Fifo ∧
      choosePresentModeStep m = .ok PresentMode.Fifo) ∧
    (m.mailbox = false → m.immediate = false → m.fifo = false →
      m.choose_present_mode = none ∧
      choosePresentModeStep m =
        .error (VulkanInstanceCreationError.Dynamic "No suitable present modes")) := by
  refine ⟨fun h1 => ⟨?_, ?_⟩, fun h1 h2 => ⟨?_, ?_⟩, fun h1 h2 h3 => ⟨?_, ?_⟩,
    fun h1 h2 h3 => ⟨?_, ?_⟩⟩ <;>
    simp_all [SupportedPresentModes.choose_present_mode, choosePresentModeStep]

/-- Witness for C2, the spec's three worked examples: fifo and mailbox
yield mailbox; fifo alone yields fifo; the empty mode set yields the
"no suitable present modes" error. -/
theorem C2_present_mode_priority_witness :
    SupportedPresentModes.choose_present_mode
      { immediate := false, mailbox := true, fifo := true, relaxed := false } =
      some PresentMode.Mailbox ∧
    SupportedPresentModes.choose_present_mode
      { immediate := false, mailbox := false, fifo := true, relaxed := false } =
      some PresentMode.Fifo ∧
    choosePresentModeStep
      { immediate := false, mailbox := false, fifo := false, relaxed := false } =
      .error (VulkanInstanceCreationError.Dynamic "No suitable present modes") :=
  ⟨((C2_present_mode_priority _).1 rfl).1,
   ((C2_present_mode_priority _).2.2.1 rfl rfl rfl).1,
   ((C2_present_mode_priority _).2.2.2 rfl rfl rfl).2⟩

/-- Claim C3: format negotiation succeeds exactly when the supported-formats
list contains the exact pair `(B8G8R8A8Unorm, SrgbNonLinear)`; when it
is absent `best_format` yields nothing — never an approximate match —
and the step fails with the dynamic error
`"No suitable supported formats"`. -/
theorem C3_exact_format_match (sol : PhysicalDeviceSolution) :
    ((Format.B8G8R8A8Unorm, ColorSpace.SrgbNonLinear) ∈
        sol.capabilities.supported_formats →
      sol.best_format = some (Format.B8G8R8A8Unorm, ColorSpace.SrgbNonLinear) ∧
      bestFormatStep sol = .ok (Format.B8G8R8A8Unorm, ColorSpace.SrgbNonLinear)) ∧
    ((Format.B8G8R8A8Unorm, ColorSpace.SrgbNonLinear) ∉
        sol.capabilities.supported_formats →
      sol.best_format = none ∧
      bestFormatStep sol =
        .error (VulkanInstanceCreationError.Dynamic "No suitable supported formats")) := by
  constructor
  · intro hmem
    have hbf : sol.best_format =
        some (Format.B8G8R8A8Unorm, ColorSpace.SrgbNonLinear) := by
      have hsome : (sol.capabilities.supported_formats.find?
          (fun p => p.1 == Format.B8G8R8A8Unorm &&
            p.2 == ColorSpace.SrgbNonLinear)).isSome = true :=
        List.find?_isSome.mpr ⟨_, hmem, by decide⟩
      obtain ⟨q, hql⟩ := Option.isSome_iff_exists.mp hsome
      obtain ⟨q1, q2⟩ := q
      have hq := List.find?_some hql
      rw [Bool.and_eq_true, beq_iff_eq, beq_iff_eq] at hq
      have hq1 : q1 = Format.B8G8R8A8Unorm := hq.1
      have hq2 : q2 = ColorSpace.SrgbNonLinear := hq.2
      rw [PhysicalDeviceSolution.best_format, hql, hq1, hq2]
    exact ⟨hbf, by rw [bestFormatStep, hbf]⟩
  · intro hmem
    have hbf : sol.best_format = none := by
      rw [PhysicalDeviceSolution.best_format, List.find?_eq_none]
      intro p hp hpred
      obtain ⟨p1, p2⟩ := p
      rw [Bool.and_eq_true, beq_iff_eq, beq_iff_eq] at hpred
      have hp1 : p1 = Format.B8G8R8A8Unorm := hpred.1
      have hp2 : p2 = ColorSpace.SrgbNonLinear := hpred.2
      rw [hp1, hp2] at hp
      exact hmem hp
    exact ⟨hbf, by rw [bestFormatStep, hbf]⟩

/-- Witness for C3: a format list containing the preferred pair yields
exactly that pair; a list with only near-misses (same format with a
different color space, different format with the same color space)
fails with the "no suitable supported formats" error. -/
theorem C3_exact_format_match_witness :
    solSample.best_format =
      some (Format.B8G8R8A8Unorm, ColorSpace.SrgbNonLinear) ∧
    solBare.best_format = none ∧
    bestFormatStep solBare =
      .error (VulkanInstanceCreationError.Dynamic "No suitable supported formats") :=
  ⟨((C3_exact_format_match solSample).1 (by decide)).1,
   ((C3_exact_format_match solBare).2 (by decide)).1,
   ((C3_exact_format_match solBare).2 (by decide)).2⟩

/-- Claim C4: the swapchain image count is `min_image_count + 1`, lowered to
`max_image_count` when the device defines a finite maximum. -/
theorem C4_image_count (c : Capabilities) :
    (c.max_image_count = none →
      c.choose_image_count = c.min_image_count + 1) ∧
    (∀ m, c.max_image_count = some m →
      c.choose_image_count = min (c.min_image_count + 1) m) := by
  constructor
  · intro h
    rw [Capabilities.choose_image_count, h]
  · intro m h
    rw [Capabilities.choose_image_count, h]

/-- Witness for C4, the spec's worked example: with
`min_image_count = 2` and `max_image_count = some 2` the chosen count
is 2, not 3; and without a maximum the count is 3. -/
theorem C4_image_count_witness :
    capsSample.choose_image_count = 2 ∧ capsBare.choose_image_count = 3 :=
  ⟨Eq.trans ((C4_image_count capsSample).2 2 rfl) (by decide),
   Eq.trans ((C4_image_count capsBare).1 rfl) (by decide)⟩

/-- Claim C5: the swapchain extent is the device-reported current extent
when defined, and otherwise each component of the actual window size
is clamped into the interval between the minimum and maximum image
extents as `max(lo, min(hi, actual))`. -/
theorem C5_extent (c : Capabilities) (w h : Nat) :
    (∀ e, c.current_extent = some e → c.choose_extent w h = e) ∧
    (c.current_extent = none →
      c.choose_extent w h =
        (max c.min_image_extent.1 (min c.max_image_extent.1 w),
         max c.min_image_extent.2 (min c.max_image_extent.2 h))) := by
  constructor
  · intro e he
    rw [Capabilities.choose_extent, he]
  · intro he
    rw [Capabilities.choose_extent, he]

/-- Witness for C5, the spec's worked example: with no current extent,
bounds `[64,64]`–`[1920,1080]` and window size `(50, 2000)` the chosen
extent is `(64, 1080)`; with a current extent it is returned as is. -/
theorem C5_extent_witness :
    capsSample.choose_extent 50 2000 = (64, 1080) ∧
    capsBare.choose_extent 50 2000 = (640, 480) :=
  ⟨Eq.trans ((C5_extent capsSample 50 2000).2 rfl) (by decide),
   (C5_extent capsBare 50 2000).1 (640, 480) rfl⟩

/-- Claim C6: the sharing mode is exclusive, tagged with the graphics queue
family id, exactly when the graphics and presentation family ids are
equal, and concurrent, tagged with `[graphics id, presentation id]` in
that order, exactly when they differ. -/
theorem C6_sharing_mode (sol : PhysicalDeviceSolution) :
    (sol.graphics_family.id = sol.presentation_family.id →
      sol.image_sharing_mode = SharingMode.Exclusive sol.graphics_family.id) ∧
    (sol.graphics_family.id ≠ sol.presentation_family.id →
      sol.image_sharing_mode =
        SharingMode.Concurrent
          [sol.graphics_family.id, sol.presentation_family.id]) := by
  constructor
  · intro h
    rw [PhysicalDeviceSolution.image_sharing_mode]
    rw [if_pos (by rw [PhysicalDeviceSolution.queues_are_same]; exact beq_iff_eq.mpr h)]
  · intro h
    rw [PhysicalDeviceSolution.image_sharing_mode]
    rw [if_neg (by rw [PhysicalDeviceSolution.queues_are_same]; simpa using h)]

/-- Witness for C6: equal family ids give exclusive sharing; distinct
ids give concurrent sharing over both ids in order. -/
theorem C6_sharing_mode_witness :
    solSample.image_sharing_mode = SharingMode.Exclusive 0 ∧
    solBare.image_sharing_mode = SharingMode.Concurrent [0, 2] :=
  ⟨(C6_sharing_mode solSample).1 rfl,
   (C6_sharing_mode solBare).2 (by decide)⟩

/-- Claim C10: a surface query that fails during device negotiation is
unwrapped, so `find_solution` aborts (panics) instead of excluding the
device or returning a typed error: for a device with the swapchain
extension and a graphics-capable family, an erroring
presentation-support query aborts the search, and an erroring
capabilities query after successful support queries aborts it as well;
conversely, when both surface queries succeed for every enumerated
device with the extension, negotiation is panic-free. -/
theorem C10_query_error_panics (s : Surface) (d : PhysicalDevice)
    (devices : List PhysicalDevice) :
    (queriesOk s devices →
      selectSolution s devices ≠ PanicOr.panics ∧
      negotiateDevice s devices ≠ PanicOr.panics) ∧
    (d.supported_extensions.khr_swapchain = true →
      (∃ qf ∈ d.queue_families, 0 < qf.queues_count ∧ qf.supports_graphics = true) →
      (∀ qf ∈ d.queue_families, ∃ e, s.is_supported qf = .error e) →
      find_solution s d = PanicOr.panics) ∧
    (d.supported_extensions.khr_swapchain = true →
      (∃ qf ∈ d.queue_families, 0 < qf.queues_count ∧ qf.supports_graphics = true) →
      (∀ qf ∈ d.queue_families, s.is_supported qf = .ok true) →
      (∃ e, s.capabilities d = .error e) →
      find_solution s d = PanicOr.panics) := by
  refine ⟨fun hq => ⟨selectSolution_no_panic s devices hq, ?_⟩, fun hk hgfx herr => ?_,
    fun hk hgfx hok hce => ?_⟩
  · unfold negotiateDevice
    cases hss : selectSolution s devices with
    | panics => exact absurd hss (selectSolution_no_panic s devices hq)
    | ok o => cases o <;> simp
  · unfold find_solution
    rw [if_neg (by simp [hk])]
    obtain ⟨g, hg⟩ := Option.isSome_iff_exists.mp ((graphicsFamilyFind_isSome d).mpr hgfx)
    rw [hg]
    have hfams : findPresentFamily s d.queue_families = PanicOr.panics := by
      obtain ⟨qf, hmem, _, _⟩ := hgfx
      cases hfam : d.queue_families with
      | nil => rw [hfam] at hmem; cases hmem
      | cons q rest =>
          obtain ⟨e, he⟩ := herr q (by rw [hfam]; exact List.mem_cons_self _ _)
          rw [findPresentFamily, he]
    rw [hfams]
  · unfold find_solution
    rw [if_neg (by simp [hk])]
    obtain ⟨g, hg⟩ := Option.isSome_iff_exists.mp ((graphicsFamilyFind_isSome d).mpr hgfx)
    rw [hg]
    have h1 : ∀ qf ∈ d.queue_families, isOkB (s.is_supported qf) = true := by
      intro qf hm
      rw [hok qf hm]
      rfl
    rw [findPresentFamily_eq_find? s d.queue_families h1]
    obtain ⟨qf, hmem, hcnt, _⟩ := hgfx
    have hsome : (d.queue_families.find? (presPred s)).isSome = true :=
      List.find?_isSome.mpr ⟨qf, hmem, (presPred_true_iff s qf).mpr ⟨hok qf hmem, hcnt⟩⟩
    obtain ⟨pf, hpf⟩ := Option.isSome_iff_exists.mp hsome
    obtain ⟨e, hce⟩ := hce
    rw [hpf, hce]

/-- Witness for C10: an always-failing presentation query panics on an
eligible-looking device; a failing capabilities query after successful
support queries panics; and on an always-succeeding surface the
selection over `[dNoExt, dEligible]` is panic-free. -/
theorem C10_query_error_panics_witness :
    find_solution sErr dEligible = PanicOr.panics ∧
    find_solution sCapErr dEligible = PanicOr.panics ∧
    selectSolution sOk [dNoExt, dEligible] ≠ PanicOr.panics :=
  ⟨(C10_query_error_panics sErr dEligible []).2.1 rfl (by decide)
      (fun _ _ => ⟨{ code := 1 }, rfl⟩),
   (C10_query_error_panics sCapErr dEligible []).2.2 rfl (by decide)
      (by decide) ⟨{ code := 7 }, rfl⟩,
   ((C10_query_error_panics sOk dEligible [dNoExt, dEligible]).1 (by decide)).1⟩

/-- Claim C7: every capability-trait method on the tagged unions forwards a
call on a Classic-tagged (respectively Vulkan-tagged) value to exactly
that variant's implementation with the same arguments, and
`borrow_api` / `borrow_loader` wrap their result in the variant tag
matching the dispatcher's own tag.  Each right-hand side mentions only
the active variant's implementation while the inactive one is
universally quantified, so the result never depends on — never
touches — the inactive variant. -/
theorem C7_dispatcher_forwarding
    {Str Line GlyphCache RenderableCell Rgb Config SizeInfo Rects PhysicalSize
      F32 F64 RasterizedGlyph Glyph CB VB CR VR CL VL : Type}
    (cClear : CR → Rgb → CR) (vClear : VR → Rgb → VR)
    (cRenderString : CR → Str → Line → GlyphCache → Option Rgb → CR × GlyphCache)
    (vRenderString : VR → Str → Line → GlyphCache → Option Rgb → VR × GlyphCache)
    (cRenderCell : CR → RenderableCell → GlyphCache → CR × GlyphCache)
    (vRenderCell : VR → RenderableCell → GlyphCache → VR × GlyphCache)
    (cLoadGlyph : CL → RasterizedGlyph → CL × Glyph)
    (vLoadGlyph : VL → RasterizedGlyph → VL × Glyph)
    (cLoaderClear : CL → CL) (vLoaderClear : VL → VL)
    (cResize : CB → PhysicalSize → F32 → F32 → CB)
    (vResize : VB → PhysicalSize → F32 → F32 → VB)
    (cDrawRects : CB → Config → SizeInfo → F64 → Rects → CB)
    (vDrawRects : VB → Config → SizeInfo → F64 → Rects → VB)
    (cBorrowApi : CB → Config → SizeInfo → CR) (vBorrowApi : VB → Config → SizeInfo → VR)
    (cBorrowLoader : CB → CL) (vBorrowLoader : VB → VL) :
    (∀ (r : CR) (color : Rgb),
      RuntimeRenderer.clear cClear vClear (RuntimeRenderer.Classic r) color =
        RuntimeRenderer.Classic (cClear r color)) ∧
    (∀ (r : VR) (color : Rgb),
      RuntimeRenderer.clear cClear vClear (RuntimeRenderer.Vulkan r) color =
        RuntimeRenderer.Vulkan (vClear r color)) ∧
    (∀ (r : CR) (string : Str) (line : Line) (glyph_cache : GlyphCache)
        (color : Option Rgb),
      RuntimeRenderer.render_string cRenderString vRenderString
          (RuntimeRenderer.Classic r) string line glyph_cache color =
        (RuntimeRenderer.Classic (cRenderString r string line glyph_cache color).1,
         (cRenderString r string line glyph_cache color).2)) ∧
    (∀ (r : VR) (string : Str) (line : Line) (glyph_cache : GlyphCache)
        (color : Option Rgb),
      RuntimeRenderer.render_string cRenderString vRenderString
          (RuntimeRenderer.Vulkan r) string line glyph_cache color =
        (RuntimeRenderer.Vulkan (vRenderString r string line glyph_cache color).1,
         (vRenderString r string line glyph_cache color).2)) ∧
    (∀ (r : CR) (cell : RenderableCell) (glyph_cache : GlyphCache),
      RuntimeRenderer.render_cell cRenderCell vRenderCell
          (RuntimeRenderer.Classic r) cell glyph_cache =
        (RuntimeRenderer.Classic (cRenderCell r cell glyph_cache).1,
         (cRenderCell r cell glyph_cache).2)) ∧
    (∀ (r : VR) (cell : RenderableCell) (glyph_cache : GlyphCache),
      RuntimeRenderer.render_cell cRenderCell vRenderCell
          (RuntimeRenderer.Vulkan r) cell glyph_cache =
        (RuntimeRenderer.Vulkan (vRenderCell r cell glyph_cache).1,
         (vRenderCell r cell glyph_cache).2)) ∧
    (∀ (l : CL) (rasterized : RasterizedGlyph),
      RuntimeLoader.load_glyph cLoadGlyph vLoadGlyph
          (RuntimeLoader.Classic l) rasterized =
        (RuntimeLoader.Classic (cLoadGlyph l rasterized).1,
         (cLoadGlyph l rasterized).2)) ∧
    (∀ (l : VL) (rasterized : RasterizedGlyph),
      RuntimeLoader.load_glyph cLoadGlyph vLoadGlyph
          (RuntimeLoader.Vulkan l) rasterized =
        (RuntimeLoader.Vulkan (vLoadGlyph l rasterized).1,
         (vLoadGlyph l rasterized).2)) ∧
    (∀ (l : CL),
      RuntimeLoader.clear cLoaderClear vLoaderClear (RuntimeLoader.Classic l) =
        RuntimeLoader.Classic (cLoaderClear l)) ∧
    (∀ (l : VL),
      RuntimeLoader.clear cLoaderClear vLoaderClear (RuntimeLoader.Vulkan l) =
        RuntimeLoader.Vulkan (vLoaderClear l)) ∧
    (∀ (r : CB) (size : PhysicalSize) (px py : F32),
      RuntimeQuadRenderer.resize cResize vResize
          (RuntimeQuadRenderer.Classic r) size px py =
        RuntimeQuadRenderer.Classic (cResize r size px py)) ∧
    (∀ (r : VB) (size : PhysicalSize) (px py : F32),
      RuntimeQuadRenderer.resize cResize vResize
          (RuntimeQuadRenderer.Vulkan r) size px py =
        RuntimeQuadRenderer.Vulkan (vResize r size px py)) ∧
    (∀ (r : CB) (config : Config) (props : SizeInfo) (bell : F64) (rects : Rects),
      RuntimeQuadRenderer.draw_rects cDrawRects vDrawRects
          (RuntimeQuadRenderer.Classic r) config props bell rects =
        RuntimeQuadRenderer.Classic (cDrawRects r config props bell rects)) ∧
    (∀ (r : VB) (config : Config) (props : SizeInfo) (bell : F64) (rects : Rects),
      RuntimeQuadRenderer.draw_rects cDrawRects vDrawRects
          (RuntimeQuadRenderer.Vulkan r) config props bell rects =
        RuntimeQuadRenderer.Vulkan (vDrawRects r config props bell rects)) ∧
    (∀ (r : CB) (config : Config) (props : SizeInfo),
      RuntimeQuadRenderer.borrow_api cBorrowApi vBorrowApi
          (RuntimeQuadRenderer.Classic r) config props =
        RuntimeRenderer.Classic (cBorrowApi r config props)) ∧
    (∀ (r : VB) (config : Config) (props : SizeInfo),
      RuntimeQuadRenderer.borrow_api cBorrowApi vBorrowApi
          (RuntimeQuadRenderer.Vulkan r) config props =
        RuntimeRenderer.Vulkan (vBorrowApi r config props)) ∧
    (∀ (r : CB),
      RuntimeQuadRenderer.borrow_loader cBorrowLoader vBorrowLoader
          (RuntimeQuadRenderer.Classic r) =
        RuntimeLoader.Classic (cBorrowLoader r)) ∧
    (∀ (r : VB),
      RuntimeQuadRenderer.borrow_loader cBorrowLoader vBorrowLoader
          (RuntimeQuadRenderer.Vulkan r) =
        RuntimeLoader.Vulkan (vBorrowLoader r)) := by
  and_intros <;> intros <;> rfl

/-- Claim C9: no capability-trait operation can return an error value — a
call outcome is either a fatal abort or a plain return, with no error
constructor — and every capability method of the Vulkan backend that
lacks a real implementation (`resize`, `draw_rects`, `borrow_api`,
`borrow_loader`, renderer `clear`, `render_string`, `render_cell`,
`load_glyph`, loader `clear`) aborts fatally on every input rather
than silently doing nothing. -/
theorem C9_stubs_abort
    {Str Line GlyphCache RenderableCell Rgb Config SizeInfo Rects PhysicalSize
      F32 F64 RasterizedGlyph Glyph : Type} :
    (∀ (α : Type) (o : CallOutcome α), o = CallOutcome.panics ∨ ∃ a, o = CallOutcome.ret a) ∧
    (∀ (api : VulkanRenderApi) (color : Rgb),
      api.clear color = CallOutcome.panics) ∧
    (∀ (api : VulkanRenderApi) (string : Str) (line : Line)
        (glyph_cache : GlyphCache) (color : Option Rgb),
      api.render_string string line glyph_cache color = CallOutcome.panics) ∧
    (∀ (api : VulkanRenderApi) (cell : RenderableCell) (glyph_cache : GlyphCache),
      api.render_cell cell glyph_cache = CallOutcome.panics) ∧
    (∀ (api : VulkanLoaderApi) (rasterized : RasterizedGlyph),
      (api.load_glyph rasterized : CallOutcome Glyph) = CallOutcome.panics) ∧
    (∀ (api : VulkanLoaderApi), api.clear = CallOutcome.panics) ∧
    (∀ (r : VkQuadRenderer) (size : PhysicalSize) (px py : F32),
      r.resize size px py = CallOutcome.panics) ∧
    (∀ (r : VkQuadRenderer) (config : Config) (props : SizeInfo)
        (bell : F64) (rects : Rects),
      r.draw_rects config props bell rects = CallOutcome.panics) ∧
    (∀ (r : VkQuadRenderer) (config : Config) (props : SizeInfo),
      r.borrow_api config props = CallOutcome.panics) ∧
    (∀ (r : VkQuadRenderer), r.borrow_loader = CallOutcome.panics) := by
  refine ⟨fun α o => ?_, fun _ _ => rfl, fun _ _ _ _ _ => rfl, fun _ _ _ => rfl,
    fun _ _ => rfl, fun _ => rfl, fun _ _ _ _ => rfl, fun _ _ _ _ _ => rfl,
    fun _ _ _ => rfl, fun _ => rfl⟩
  cases o with
  | panics => exact Or.inl rfl
  | ret a => exact Or.inr ⟨a, rfl⟩

/-- Counterexample to C8: the no-suitable-format and
no-suitable-present-mode failures are not reported with dedicated
variants of `VulkanInstanceCreationError`; both are produced as the
generic dynamic-message `Dynamic` variant, distinguished only by their
message strings. -/
theorem C8_error_taxonomy_counterexample :
    bestFormatStep solBare =
      .error (VulkanInstanceCreationError.Dynamic "No suitable supported formats") ∧
    choosePresentModeStep capsBare.present_modes =
      .error (VulkanInstanceCreationError.Dynamic "No suitable present modes") ∧
    (VulkanInstanceCreationError.Dynamic "No suitable supported formats").isDynamic
      = true ∧
    (VulkanInstanceCreationError.Dynamic "No suitable present modes").isDynamic
      = true :=
  ⟨rfl, rfl, rfl, rfl⟩

/-- Claim C8 as amended: every negotiation failure is reported as a typed
`VulkanInstanceCreationError` value, with dedicated variants for
instance-creation, debug-callback-setup, surface-creation,
no-matching-device, device-creation and swapchain-creation failures,
while the no-suitable-format and no-suitable-present-mode failures are
reported through the generic dynamic-message variant with
distinguishing messages; sample errors of the distinct stages are
pairwise distinct values. -/
theorem C8_error_taxonomy_amended (sol : PhysicalDeviceSolution)
    (m : SupportedPresentModes) (s : Surface) (devices : List PhysicalDevice)
    (hq : queriesOk s devices) (hne : ∀ d ∈ devices, ¬ Eligible s d)
    (hbf : sol.best_format = none) (hpm : m.choose_present_mode = none) :
    negotiateDevice s devices =
      .ok (.error VulkanInstanceCreationError.NoMatchingDevice) ∧
    bestFormatStep sol =
      .error (VulkanInstanceCreationError.Dynamic "No suitable supported formats") ∧
    choosePresentModeStep m =
      .error (VulkanInstanceCreationError.Dynamic "No suitable present modes") ∧
    ([VulkanInstanceCreationError.Instance { code := 0 },
      VulkanInstanceCreationError.DebugCallback { code := 0 },
      VulkanInstanceCreationError.SurfaceCreation { code := 0 },
      VulkanInstanceCreationError.NoMatchingDevice,
      VulkanInstanceCreationError.DeviceCreation { code := 0 },
      VulkanInstanceCreationError.Dynamic "No suitable supported formats",
      VulkanInstanceCreationError.Dynamic "No suitable present modes",
      VulkanInstanceCreationError.SwapchainCreation { code := 0 }]).Pairwise
        (fun a b => a ≠ b) := by
  refine ⟨?_, ?_, ?_, by decide⟩
  · unfold negotiateDevice
    rw [selectSolution_none s devices hq hne]
  · rw [bestFormatStep, hbf]
  · rw [choosePresentModeStep, hpm]

/-- Witness for the amended C8: concrete failures of the three
negotiation stages produce the three distinct typed errors. -/
theorem C8_error_taxonomy_amended_witness :
    negotiateDevice sOk [dNoExt] =
      .ok (.error VulkanInstanceCreationError.NoMatchingDevice) ∧
    bestFormatStep solBare =
      .error (VulkanInstanceCreationError.Dynamic "No suitable supported formats") ∧
    choosePresentModeStep capsBare.present_modes =
      .error (VulkanInstanceCreationError.Dynamic "No suitable present modes") :=
  have h := C8_error_taxonomy_amended solBare capsBare.present_modes sOk [dNoExt]
    (by decide) (by decide) (by decide) (by decide)
  ⟨h.1, h.2.1, h.2.2.1⟩

end VkSpec
